import Mathlib

/-!
Verification of the simulation compute engine of the Complexity-emergence
repository: the generic double-buffered grid stepping pipeline
(`static/js/core/fieldSim.js` together with `static/js/core/webgl.js`),
the agent-based boids engine (`static/js/sims/boids.js`), and the
numerical step kernels of the reaction-diffusion
(`static/js/sims/reaction-diffusion.js`) and Kuramoto oscillator
(`static/js/sims/kuramoto.js`) simulations.

The resource lifecycle (shader-program compilation, texture/framebuffer
allocation, ping-pong buffer indices) is embedded as pure state-passing
functions over an explicit GL-context state with fresh-id allocation.
Shader arithmetic is embedded over the exact reals; GLSL builtins
(`length`, `clamp`, `mod`, `fract`, `mix`) are given their specified
mathematical meaning.
-/

namespace Emergence

/-! ## GL context model (`webgl.js`)

GL objects are modelled as numbered resources with a kind tag; the
context state carries a fresh-id counter, the list of live resources,
and the console-error log. -/

inductive ResKind where
  | program
  | texture
  | framebuffer
  | buffer
deriving DecidableEq, Repr

structure Res where
  id : Nat
  kind : ResKind
deriving DecidableEq, Repr

structure GLState where
  nextId : Nat
  allocated : List Res
  log : List String
deriving DecidableEq, Repr

def GLState.initial : GLState := { nextId := 0, allocated := [], log := [] }

def GLState.alloc (gl : GLState) (k : ResKind) : Nat × GLState :=
  (gl.nextId,
   { nextId := gl.nextId + 1,
     allocated := { id := gl.nextId, kind := k } :: gl.allocated,
     log := gl.log })

def GLState.logErr (gl : GLState) (msg : String) : GLState :=
  { gl with log := msg :: gl.log }

def GLState.free (gl : GLState) (o : Option Nat) : GLState :=
  match o with
  | none => gl
  | some i => { gl with allocated := gl.allocated.filter (fun r => r.id ≠ i) }

/-- Model of `createProgram` in `webgl.js`: compilation/linking succeeds or
fails according to the `ok` oracle; on success a program object is
allocated, on failure the diagnostic (with the caller's label) is logged
and `null` is returned. -/
def createProgram (gl : GLState) (ok : Bool) (label : String) : Option Nat × GLState :=
  if ok then
    let r := gl.alloc ResKind.program
    (some r.1, r.2)
  else
    (none, gl.logErr label)

/-- Model of `createTexture` in `webgl.js` (always allocates). -/
def createTexture (gl : GLState) : Nat × GLState :=
  gl.alloc ResKind.texture

/-- Model of `createFramebuffer` in `webgl.js` (always allocates). -/
def createFramebuffer (gl : GLState) : Nat × GLState :=
  gl.alloc ResKind.framebuffer

/-- Model of `gl.createBuffer` (always allocates). -/
def createBufferObj (gl : GLState) : Nat × GLState :=
  gl.alloc ResKind.buffer

/-- Resources allocated during a call, given the context state before and
after it.  Allocation only ever conses onto `allocated`, so the new
resources are exactly the prefix that grew. -/
def allocatedDuring (old new : GLState) : List Res :=
  new.allocated.take (new.allocated.length - old.allocated.length)

/-! ## Interaction state (`interaction.js` boundary) -/

structure Touch where
  pos : ℚ × ℚ
  active : Bool
  button : Nat
deriving DecidableEq, Repr

/-! ## Generic field engine (`fieldSim.js`) -/

structure FieldEngine where
  stepProg : Option Nat
  displayProg : Option Nat
  tex0 : Option Nat
  tex1 : Option Nat
  fb0 : Option Nat
  fb1 : Option Nat
  currentTex : Nat
deriving DecidableEq, Repr

namespace FieldSim

/-- Closure state as initialised at the top of `fieldSim`. -/
def initial : FieldEngine :=
  { stepProg := none, displayProg := none, tex0 := none, tex1 := none,
    fb0 := none, fb1 := none, currentTex := 0 }

/-- Accessor for `textures[i]`, `i` in 0..1. -/
def texAt (e : FieldEngine) (i : Nat) : Option Nat :=
  if i = 0 then e.tex0 else e.tex1

/-- Accessor for `framebuffers[i]`, `i` in 0..1. -/
def fbAt (e : FieldEngine) (i : Nat) : Option Nat :=
  if i = 0 then e.fb0 else e.fb1

/-- Model of `setup` in `fieldSim.js`: compile the step and display
programs; on any compile failure log and return (textures untouched);
otherwise create the ping-pong texture pair, their framebuffers, and
reset the current index to 0. -/
def setup (gl : GLState) (stepOk displayOk : Bool) (e : FieldEngine) :
    FieldEngine × GLState :=
  let r1 := createProgram gl stepOk "rd step"
  let r2 := createProgram r1.2 displayOk "rd display"
  let e1 := { e with stepProg := r1.1, displayProg := r2.1 }
  if r1.1.isNone || r2.1.isNone then
    (e1, r2.2.logErr "Failed to compile shaders")
  else
    let t0 := createTexture r2.2
    let t1 := createTexture t0.2
    let f0 := createFramebuffer t1.2
    let f1 := createFramebuffer f0.2
    ({ e1 with tex0 := some t0.1, tex1 := some t1.1,
               fb0 := some f0.1, fb1 := some f1.1, currentTex := 0 },
     f1.2)

/-- Model of `teardown` in `fieldSim.js`. -/
def teardown (gl : GLState) (e : FieldEngine) : FieldEngine × GLState :=
  let g1 := gl.free e.tex0
  let g2 := g1.free e.tex1
  let g3 := g2.free e.fb0
  let g4 := g3.free e.fb1
  let g5 := g4.free e.stepProg
  (initial, g5.free e.displayProg)

/-- Touch uniform selection in `step` (`fieldSim.js` lines 130-134): the
pointer position when active, the sentinel `(-1, -1)` otherwise. -/
def stepTouchUniform (t : Touch) : ℚ × ℚ :=
  if t.active then t.pos else (-1, -1)

/-- Record of what one `step` invocation binds: the texture bound as the
read source, the framebuffer bound as render target together with its
colour attachment, the slot index written, and the value given to the
`u_touch` uniform. -/
structure Dispatch where
  readTex : Option Nat
  writeFB : Option Nat
  writeTex : Option Nat
  writeIdx : Nat
  touchUniform : ℚ × ℚ
deriving DecidableEq, Repr

/-- Model of `step` in `fieldSim.js`: abort if the step program is
missing; otherwise read `textures[currentTex]`, render into
`framebuffers[1 - currentTex]`, and flip `currentTex`. -/
def step (e : FieldEngine) (t : Touch) : FieldEngine × Option Dispatch :=
  if e.stepProg.isNone then (e, none)
  else
    let target := 1 - e.currentTex
    ({ e with currentTex := target },
     some { readTex := texAt e e.currentTex, writeFB := fbAt e target,
            writeTex := texAt e target, writeIdx := target,
            touchUniform := stepTouchUniform t })

/-- A field engine in the state a successful `setup` establishes: step
program present, both textures present and distinct objects, index in
range. -/
abbrev Ready (e : FieldEngine) : Prop :=
  e.stepProg.isSome ∧ e.tex0.isSome ∧ e.tex1.isSome ∧
    e.tex0 ≠ e.tex1 ∧ e.currentTex ≤ 1

end FieldSim

/-! ## Agent engine (`boids.js`) -/

structure BoidsEngine where
  stepProg : Option Nat
  trailFadeProg : Option Nat
  boidDrawProg : Option Nat
  displayProg : Option Nat
  stateTex0 : Option Nat
  stateTex1 : Option Nat
  stateFB0 : Option Nat
  stateFB1 : Option Nat
  trailTex0 : Option Nat
  trailTex1 : Option Nat
  trailFB0 : Option Nat
  trailFB1 : Option Nat
  indexBuf : Option Nat
  curState : Nat
  curTrail : Nat
deriving DecidableEq, Repr

namespace Boids

/-- Module-scope state as initialised at the top of `boids.js`. -/
def initial : BoidsEngine :=
  { stepProg := none, trailFadeProg := none, boidDrawProg := none,
    displayProg := none, stateTex0 := none, stateTex1 := none,
    stateFB0 := none, stateFB1 := none, trailTex0 := none,
    trailTex1 := none, trailFB0 := none, trailFB1 := none,
    indexBuf := none, curState := 0, curTrail := 0 }

def stateAt (b : BoidsEngine) (i : Nat) : Option Nat :=
  if i = 0 then b.stateTex0 else b.stateTex1

def stateFBAt (b : BoidsEngine) (i : Nat) : Option Nat :=
  if i = 0 then b.stateFB0 else b.stateFB1

def trailAt (b : BoidsEngine) (i : Nat) : Option Nat :=
  if i = 0 then b.trailTex0 else b.trailTex1

def trailFBAt (b : BoidsEngine) (i : Nat) : Option Nat :=
  if i = 0 then b.trailFB0 else b.trailFB1

/-- Model of `setup` in `boids.js`: fail fast when vertex-stage texture
sampling is unavailable (`MAX_VERTEX_TEXTURE_IMAGE_UNITS < 1`); compile
the four programs and abort if any failed; otherwise allocate the state
ping-pong pair, the trail ping-pong pair, the index buffer, and reset
both current indices to 0. -/
def setup (gl : GLState) (maxVTU : Nat) (stepOk trailOk drawOk displayOk : Bool)
    (b : BoidsEngine) : BoidsEngine × GLState :=
  if maxVTU < 1 then
    (b, gl.logErr "Boids vertex texture fetch not supported")
  else
    let r1 := createProgram gl stepOk "boids step"
    let r2 := createProgram r1.2 trailOk "boids trailFade"
    let r3 := createProgram r2.2 drawOk "boids boidDraw"
    let r4 := createProgram r3.2 displayOk "boids display"
    let b1 := { b with stepProg := r1.1, trailFadeProg := r2.1,
                       boidDrawProg := r3.1, displayProg := r4.1 }
    if r1.1.isNone || r2.1.isNone || r3.1.isNone || r4.1.isNone then
      (b1, r4.2.logErr "Boids shader compilation failed")
    else
      let s0 := createTexture r4.2
      let s1 := createTexture s0.2
      let sf0 := createFramebuffer s1.2
      let sf1 := createFramebuffer sf0.2
      let t0 := createTexture sf1.2
      let t1 := createTexture t0.2
      let tf0 := createFramebuffer t1.2
      let tf1 := createFramebuffer tf0.2
      let ib := createBufferObj tf1.2
      ({ b1 with stateTex0 := some s0.1, stateTex1 := some s1.1,
                 stateFB0 := some sf0.1, stateFB1 := some sf1.1,
                 trailTex0 := some t0.1, trailTex1 := some t1.1,
                 trailFB0 := some tf0.1, trailFB1 := some tf1.1,
                 indexBuf := some ib.1, curState := 0, curTrail := 0 },
       ib.2)

/-- Model of `teardown` in `boids.js`. -/
def teardown (gl : GLState) (b : BoidsEngine) : BoidsEngine × GLState :=
  let g1 := gl.free b.stateTex0
  let g2 := g1.free b.stateFB0
  let g3 := g2.free b.trailTex0
  let g4 := g3.free b.trailFB0
  let g5 := g4.free b.stateTex1
  let g6 := g5.free b.stateFB1
  let g7 := g6.free b.trailTex1
  let g8 := g7.free b.trailFB1
  let g9 := g8.free b.indexBuf
  let g10 := g9.free b.stepProg
  let g11 := g10.free b.trailFadeProg
  let g12 := g11.free b.boidDrawProg
  (initial, g12.free b.displayProg)

/-- Touch uniform selection in `step` (`boids.js` lines 394-402):
`(u_touch, u_touchActive, u_touchButton)`. -/
def touchUniforms (t : Touch) : (ℚ × ℚ) × ℚ × ℚ :=
  if t.active then (t.pos, 1, if t.button = 2 then 1 else 0)
  else ((-1, -1), 0, 0)

/-- Record of the buffers bound by the three passes of one `step`
invocation of the agent engine. -/
structure Dispatch where
  stateRead : Option Nat
  stateWrite : Option Nat
  stateWriteIdx : Nat
  trailRead : Option Nat
  trailWrite : Option Nat
  trailWriteIdx : Nat
  pointRead : Option Nat
  pointWrite : Option Nat
  touch : (ℚ × ℚ) × ℚ × ℚ
deriving DecidableEq, Repr

/-- Model of `step` in `boids.js`: abort if the step program is missing;
pass 1 reads `stateTex[curState]` and writes `stateFB[1 - curState]`,
then flips `curState`; pass 2 reads `trailTex[curTrail]` and writes
`trailFB[1 - curTrail]`; pass 3 reads the just-written state texture and
additively draws onto the same trail target; finally `curTrail` flips. -/
def step (b : BoidsEngine) (t : Touch) : BoidsEngine × Option Dispatch :=
  if b.stepProg.isNone then (b, none)
  else
    let nextState := 1 - b.curState
    let nextTrail := 1 - b.curTrail
    ({ b with curState := nextState, curTrail := nextTrail },
     some { stateRead := stateAt b b.curState,
            stateWrite := stateAt b nextState,
            stateWriteIdx := nextState,
            trailRead := trailAt b b.curTrail,
            trailWrite := trailAt b nextTrail,
            trailWriteIdx := nextTrail,
            pointRead := stateAt b nextState,
            pointWrite := trailAt b nextTrail,
            touch := touchUniforms t })

/-- A boids engine in the state a successful `setup` establishes: all
four textures present and pairwise distinct objects, indices in range. -/
abbrev Ready (b : BoidsEngine) : Prop :=
  b.stepProg.isSome ∧ b.stateTex0.isSome ∧ b.stateTex1.isSome ∧
    b.trailTex0.isSome ∧ b.trailTex1.isSome ∧
    b.stateTex0 ≠ b.stateTex1 ∧ b.trailTex0 ≠ b.trailTex1 ∧
    b.stateTex0 ≠ b.trailTex0 ∧ b.stateTex0 ≠ b.trailTex1 ∧
    b.stateTex1 ≠ b.trailTex0 ∧ b.stateTex1 ≠ b.trailTex1 ∧
    b.curState ≤ 1 ∧ b.curTrail ≤ 1

end Boids

/-! ## Lattice neighbour addressing of the field step kernels

Both grid-based step shaders (`reaction-diffusion.js` and `kuramoto.js`)
read their four neighbours as `texture2D(u_state, v_uv ± dx)` with
`dx = 1/resolution`, where `v_uv = (cell + 0.5) / resolution` per axis.
The state textures are created by `createTexture` in `webgl.js` with
`TEXTURE_MIN_FILTER`/`MAG_FILTER` set to `NEAREST` and
`TEXTURE_WRAP_S`/`WRAP_T` set to `CLAMP_TO_EDGE`.  Per the GLES 2.0
sampling rules this clamps the normalised coordinate to
`[1/(2·size), 1 - 1/(2·size)]` per axis and then selects texel
`⌊coord · size⌋`. -/

/-- The `CLAMP_TO_EDGE` coordinate clamping for one axis of a texture of the
given size. -/
def clampCoord (size : ℕ) (s : ℚ) : ℚ :=
  min (max s (1 / (2 * size))) (1 - 1 / (2 * size))

/-- Texel selected by `NEAREST` sampling at normalised coordinate `s` on
one axis of a `CLAMP_TO_EDGE` texture of the given size. -/
def texelIndex (size : ℕ) (s : ℚ) : ℤ :=
  Int.floor (clampCoord size s * size)

/-- Normalised centre coordinate `v_uv` of cell `x` on an axis of the
given size (the fragment interpolation of the full-screen quad). -/
def cellUV (size x : ℕ) : ℚ :=
  ((x : ℚ) + 1 / 2) / size

/-- Texel actually read for the neighbour at offset `offs` (in cells) of
cell `x`, as the reaction-diffusion and Kuramoto step shaders read it:
`texture2D(u_state, v_uv + offs/size)` on a `CLAMP_TO_EDGE`, `NEAREST`
texture. -/
def neighborTexel (size x : ℕ) (offs : ℤ) : ℤ :=
  texelIndex size (cellUV size x + (offs : ℚ) / size)

/-- Modelled from the spec: the toroidal neighbour index the spec claims
("lattice neighbor lookups wrap modulo grid size"), for comparison with
`neighborTexel`. -/
def wrapTexel (size x : ℕ) (offs : ℤ) : ℤ :=
  ((x : ℤ) + offs) % (size : ℤ)

/-! ## GLSL builtins over the exact reals -/

noncomputable section

/-- GLSL `length` of a two-component vector. -/
def glslLength (v : ℝ × ℝ) : ℝ :=
  Real.sqrt (v.1 ^ 2 + v.2 ^ 2)

/-- GLSL `clamp`. -/
def glslClamp (x lo hi : ℝ) : ℝ :=
  min (max x lo) hi

/-- GLSL `mod(x, y) = x - y * floor(x / y)`. -/
def glslMod (x y : ℝ) : ℝ :=
  x - y * Int.floor (x / y)

/-- GLSL `mix(a, b, t) = a * (1 - t) + b * t`. -/
def glslMix (a b t : ℝ) : ℝ :=
  a * (1 - t) + b * t

/-- GLSL two-argument `atan(y, x)`. -/
def glslAtan2 (y x : ℝ) : ℝ :=
  if 0 < x then Real.arctan (y / x)
  else if x < 0 then
    (if y < 0 then Real.arctan (y / x) - Real.pi
     else Real.arctan (y / x) + Real.pi)
  else
    (if 0 < y then Real.pi / 2 else if y < 0 then -(Real.pi / 2) else 0)

/-! ## Reaction-diffusion step kernel (`reaction-diffusion.js`) -/

structure RDUniforms where
  f : ℝ
  k : ℝ
  Du : ℝ
  Dv : ℝ

/-- Per-cell step of the Gray-Scott shader `STEP_SHADER` in
`reaction-diffusion.js`.  `here`, `up`, `down`, `left`, `right` are the
`(r, g) = (u, v)` channels of the sampled cells, `uv` is `v_uv`, `touch`
is the `u_touch` uniform and `touchRadius` is `u_touchRadius`. -/
def rdStep (uni : RDUniforms) (touch : ℝ × ℝ) (touchRadius : ℝ)
    (uv : ℝ × ℝ) (here up down left right : ℝ × ℝ) : ℝ × ℝ :=
  let u := here.1
  let v := here.2
  let lapU := up.1 + down.1 + left.1 + right.1 - 4 * u
  let lapV := up.2 + down.2 + left.2 + right.2 - 4 * v
  let uvv := u * v * v
  let newU := u + uni.Du * lapU - uvv + uni.f * (1 - u)
  let newV := v + uni.Dv * lapV + uvv - (uni.f + uni.k) * v
  let touched : ℝ × ℝ :=
    if 0 ≤ touch.1 then
      let dist := glslLength (uv.1 - touch.1, uv.2 - touch.2)
      if dist < touchRadius then
        let strength := 1 - dist / touchRadius
        (newU - 0.1 * strength, newV + 0.2 * strength)
      else (newU, newV)
    else (newU, newV)
  (glslClamp touched.1 0 1, glslClamp touched.2 0 1)

/-! ## Kuramoto step kernel (`kuramoto.js`, concatenated into
`sims/boids.js` in this source tree) -/

/-- The shader constant `PI2 = 6.28318530718`. -/
def PI2 : ℝ := 6.28318530718

/-- Final phase reduction of the Kuramoto step shader:
`new_theta = mod(new_theta, PI2); if (new_theta < 0.0) new_theta += PI2;`. -/
def wrapPhase (x : ℝ) : ℝ :=
  let m := glslMod x PI2
  if m < 0 then m + PI2 else m

/-- Per-cell step of the Kuramoto shader `STEP_SHADER` in `kuramoto.js`.
`here` is `(theta, omega)`; `tUp`, `tDown`, `tLeft`, `tRight` are the
neighbour phase channels. -/
def kuramotoStep (K dt : ℝ) (touch : ℝ × ℝ) (touchRadius : ℝ)
    (uv : ℝ × ℝ) (here : ℝ × ℝ) (tUp tDown tLeft tRight : ℝ) : ℝ × ℝ :=
  let theta := here.1
  let omega := here.2
  let coupling := Real.sin (tUp - theta) + Real.sin (tDown - theta)
    + Real.sin (tLeft - theta) + Real.sin (tRight - theta)
  let newTheta := theta + dt * (omega + K / 4 * coupling)
  let newTheta2 :=
    if 0 ≤ touch.1 then
      let dist := glslLength (uv.1 - touch.1, uv.2 - touch.2)
      if dist < touchRadius ∧ 0.001 < dist then
        let diff := (uv.1 - touch.1, uv.2 - touch.2)
        let angle := glslAtan2 diff.2 diff.1
        let spiral := angle + dist * 30
        let strength := 1 - dist / touchRadius
        glslMix newTheta spiral (strength * 0.8)
      else newTheta
    else newTheta
  (wrapPhase newTheta2, omega)

/-! ## Boids agent step kernel (`boids.js` `STEP_FS`) -/

/-- The shader constant `PI = 3.14159265` of `STEP_FS`. -/
def BPI : ℝ := 3.14159265

/-- One agent of the 32x32 state texture:
`R = pos.x, G = pos.y, B = vel.x, A = vel.y`. -/
structure Agent where
  pos : ℝ × ℝ
  vel : ℝ × ℝ

/-- The agent table sampled by the N^2 scan (one cell per agent). -/
def AgentTable := Fin 32 → Fin 32 → Agent

/-- Function `steer` of `STEP_FS`: desired direction to clamped acceleration. -/
def steer (desired vel : ℝ × ℝ) (maxSpd maxFrc : ℝ) : ℝ × ℝ :=
  let len := glslLength desired
  if len < 0.0001 then (0, 0)
  else
    let s := (desired.1 / len * maxSpd - vel.1, desired.2 / len * maxSpd - vel.2)
    let sl := glslLength s
    if maxFrc < sl then (s.1 / sl * maxFrc, s.2 / sl * maxFrc) else s

/-- Toroidal shortest-path offset of `STEP_FS`:
`diff = a - b; diff -= floor(diff + 0.5)` componentwise. -/
def torDiff (a b : ℝ × ℝ) : ℝ × ℝ :=
  ((a.1 - b.1) - Int.floor ((a.1 - b.1) + 0.5),
   (a.2 - b.2) - Int.floor ((a.2 - b.2) + 0.5))

/-- Whether the neighbour loop body of `STEP_FS` keeps this neighbour
(`continue` when `dSq < 0.000001 || dSq > percSq`). -/
def nbrKept (perception : ℝ) (pos opos : ℝ × ℝ) : Prop :=
  let d := torDiff pos opos
  let dSq := d.1 ^ 2 + d.2 ^ 2
  0.000001 ≤ dSq ∧ dSq ≤ perception ^ 2

instance (perception : ℝ) (pos opos : ℝ × ℝ) :
    Decidable (nbrKept perception pos opos) := by
  unfold nbrKept
  exact instDecidableAnd

/-- Separation contribution of one scanned neighbour (restricted to the
tighter sub-radius `sepR = perception * 0.45`). -/
def sepContrib (perception : ℝ) (pos : ℝ × ℝ) (other : Agent) : ℝ × ℝ :=
  let d := torDiff pos other.pos
  let dSq := d.1 ^ 2 + d.2 ^ 2
  if nbrKept perception pos other.pos ∧ dSq < (perception * 0.45) ^ 2 then
    let dd := Real.sqrt dSq
    (d.1 / dd, d.2 / dd)
  else (0, 0)

/-- Separation counter contribution of one scanned neighbour. -/
def sepCountContrib (perception : ℝ) (pos : ℝ × ℝ) (other : Agent) : ℝ :=
  let d := torDiff pos other.pos
  let dSq := d.1 ^ 2 + d.2 ^ 2
  if nbrKept perception pos other.pos ∧ dSq < (perception * 0.45) ^ 2 then 1
  else 0

/-- Alignment contribution of one scanned neighbour (its velocity). -/
def aliContrib (perception : ℝ) (pos : ℝ × ℝ) (other : Agent) : ℝ × ℝ :=
  if nbrKept perception pos other.pos then other.vel else (0, 0)

/-- Cohesion contribution of one scanned neighbour (`cohSum -= diff`). -/
def cohContrib (perception : ℝ) (pos : ℝ × ℝ) (other : Agent) : ℝ × ℝ :=
  if nbrKept perception pos other.pos then
    let d := torDiff pos other.pos
    (-d.1, -d.2)
  else (0, 0)

/-- Neighbour counter contribution of one scanned neighbour. -/
def nCountContrib (perception : ℝ) (pos : ℝ × ℝ) (other : Agent) : ℝ :=
  if nbrKept perception pos other.pos then 1 else 0

/-- Sum of a vector-valued per-neighbour contribution over the whole
32x32 agent table (the brute-force N^2 scan of `STEP_FS`). -/
def scanSum (table : AgentTable) (f : Agent → ℝ × ℝ) : ℝ × ℝ :=
  (∑ gy : Fin 32, ∑ gx : Fin 32, (f (table gy gx)).1,
   ∑ gy : Fin 32, ∑ gx : Fin 32, (f (table gy gx)).2)

/-- Sum of a scalar per-neighbour contribution over the agent table. -/
def scanCount (table : AgentTable) (f : Agent → ℝ) : ℝ :=
  ∑ gy : Fin 32, ∑ gx : Fin 32, f (table gy gx)

/-- Mode-adjusted force weights of `STEP_FS`
(`wS`, `wA`, `wC` after the mode branch). -/
def modeWeights (separation alignment cohesion mode touchActive : ℝ) :
    ℝ × ℝ × ℝ :=
  if 0.5 < mode ∧ mode < 1.5 then
    (separation * 1.5, alignment * 0.25, cohesion * 0.25)
  else if 1.5 < mode ∧ 0.5 < touchActive then
    (separation, alignment, cohesion * 2.0)
  else (separation, alignment, cohesion)

/-- Deterministic crowd-mode jitter of `STEP_FS` (zero outside crowd
mode). -/
def crowdJitter (mode maxForce : ℝ) (pos vel : ℝ × ℝ) : ℝ × ℝ :=
  if 0.5 < mode ∧ mode < 1.5 then
    let h := Int.fract (Real.sin ((pos.1 + vel.1 * 137.0) * 12.9898
      + (pos.2 + vel.2 * 137.0) * 78.233) * 43758.5453)
    let a := h * 2 * BPI
    (Real.cos a * (maxForce * 0.35), Real.sin a * (maxForce * 0.35))
  else (0, 0)

/-- Touch-interaction steering of `STEP_FS` (zero when
`u_touchActive <= 0.5`). -/
def touchSteer (touchActive : ℝ) (touch : ℝ × ℝ) (touchButton : ℝ)
    (mode perception maxSpeed maxForce : ℝ) (pos vel : ℝ × ℝ) : ℝ × ℝ :=
  if 0.5 < touchActive then
    let toT := torDiff touch pos
    let tD := glslLength toT
    if 1.5 < mode then
      if tD < perception * 3.0 ∧ 0.001 < tD then
        let s := steer (-toT.1, -toT.2) vel maxSpeed maxForce
        (s.1 * 3.5, s.2 * 3.5)
      else (0, 0)
    else
      if tD < perception * 2.5 ∧ 0.001 < tD then
        let dir := if touchButton < 0.5 then toT else (-toT.1, -toT.2)
        let s := steer dir vel maxSpeed maxForce
        (s.1 * 2.5, s.2 * 2.5)
      else (0, 0)
  else (0, 0)

/-- Acceleration assembled by `STEP_FS` from the three Reynolds forces,
the crowd jitter, and the touch interaction. -/
def boidsAccel (separation alignment cohesion perception maxSpeed mode : ℝ)
    (touch : ℝ × ℝ) (touchActive touchButton : ℝ)
    (table : AgentTable) (pos vel : ℝ × ℝ) : ℝ × ℝ :=
  let maxForce := maxSpeed * 0.2
  let w := modeWeights separation alignment cohesion mode touchActive
  let sepSum := scanSum table (sepContrib perception pos)
  let sepCount := scanCount table (sepCountContrib perception pos)
  let aliSum := scanSum table (aliContrib perception pos)
  let cohSum := scanSum table (cohContrib perception pos)
  let nCount := scanCount table (nCountContrib perception pos)
  let sepF : ℝ × ℝ :=
    if 0 < sepCount then
      let s := steer (sepSum.1 / sepCount, sepSum.2 / sepCount) vel maxSpeed maxForce
      (s.1 * w.1, s.2 * w.1)
    else (0, 0)
  let aliF : ℝ × ℝ :=
    if 0 < nCount then
      let s := steer (aliSum.1 / nCount, aliSum.2 / nCount) vel maxSpeed maxForce
      (s.1 * w.2.1, s.2 * w.2.1)
    else (0, 0)
  let cohF : ℝ × ℝ :=
    if 0 < nCount then
      let s := steer (cohSum.1 / nCount, cohSum.2 / nCount) vel maxSpeed maxForce
      (s.1 * w.2.2, s.2 * w.2.2)
    else (0, 0)
  let jit := crowdJitter mode maxForce pos vel
  let tch := touchSteer touchActive touch touchButton mode perception maxSpeed
    maxForce pos vel
  (sepF.1 + aliF.1 + cohF.1 + jit.1 + tch.1,
   sepF.2 + aliF.2 + cohF.2 + jit.2 + tch.2)

/-- Velocity integration and speed clamping of `STEP_FS`
(lines 163-167): add the acceleration, rescale down to `u_maxSpeed` when
too fast, rescale a slow-but-moving agent up to the
`u_maxSpeed * 0.12` floor. -/
def integrateVel (maxSpeed : ℝ) (vel accel : ℝ × ℝ) : ℝ × ℝ :=
  let v0 := (vel.1 + accel.1, vel.2 + accel.2)
  let spd := glslLength v0
  let v1 := if maxSpeed < spd then (v0.1 / spd * maxSpeed, v0.2 / spd * maxSpeed)
    else v0
  if 0 < spd ∧ spd < maxSpeed * 0.12 then
    (v1.1 / spd * maxSpeed * 0.12, v1.2 / spd * maxSpeed * 0.12)
  else v1

/-- Position integration and toroidal wrap of `STEP_FS` (lines 169-170):
`pos += vel; pos = fract(pos);`. -/
def integratePos (pos vel : ℝ × ℝ) : ℝ × ℝ :=
  (Int.fract (pos.1 + vel.1), Int.fract (pos.2 + vel.2))

/-- Whole per-agent step of `STEP_FS`. -/
def boidsAgentStep (separation alignment cohesion perception maxSpeed mode : ℝ)
    (touch : ℝ × ℝ) (touchActive touchButton : ℝ)
    (table : AgentTable) (self : Agent) : Agent :=
  let accel := boidsAccel separation alignment cohesion perception maxSpeed mode
    touch touchActive touchButton table self.pos self.vel
  let vel2 := integrateVel maxSpeed self.vel accel
  { pos := integratePos self.pos vel2, vel := vel2 }

/-! ## Trail subsystem (`boids.js` `TRAIL_FADE_FS` and the additive
point-accumulation pass) -/

/-- Per-pixel trail evolution for one tick: the fade pass multiplies the
previous value by `u_persistence`, then the point pass adds the agents'
additive-blend contribution at that pixel. -/
def trailTick (persistence contrib v : ℝ) : ℝ :=
  v * persistence + contrib

/-- Trail value of a pixel after `n` ticks, with `contrib i` the
additive contribution the point pass makes at tick `i`. -/
def trailRun (persistence : ℝ) (contrib : ℕ → ℝ) : ℕ → ℝ → ℝ
  | 0, v => v
  | n + 1, v => trailTick persistence (contrib n) (trailRun persistence contrib n v)

/-- Cast of a rational uniform pair to the reals the shader computes
with. -/
def ratPair (p : ℚ × ℚ) : ℝ × ℝ :=
  ((p.1 : ℝ), (p.2 : ℝ))

end

/-! # Claims -/

/-- Claim C1 is false as stated: the field step kernels' neighbour
lookups do not wrap modulo the grid size.  The state textures are
created with `CLAMP_TO_EDGE` wrapping, so the "down" neighbour read of a
cell in row 0 of a 512-row grid returns row 0 itself, where toroidal
(modulo) addressing would return row 511. -/
theorem C1_counterexample :
    neighborTexel 512 0 (-1) ≠ wrapTexel 512 0 (-1) := by
  norm_num [neighborTexel, texelIndex, clampCoord, cellUV, wrapTexel]

/-- Claim C1, amended: for every grid-based field simulation
(reaction-diffusion and phase-coupling), the step kernel's lattice
neighbour lookups use clamp-to-edge addressing: for every cell, a
neighbour read at offset `offs` returns the cell at index
`x + offs` clamped into `[0, size - 1]` on that axis — at a boundary the
out-of-range read returns the nearest edge cell, not the opposite
edge. -/
theorem C1_amended (size x : ℕ) (offs : ℤ) (hs : 0 < size) (hx : x < size) :
    neighborTexel size x offs = max 0 (min ((size : ℤ) - 1) ((x : ℤ) + offs)) := by
  have hn0 : (size : ℚ) ≠ 0 := Nat.cast_ne_zero.mpr hs.ne'
  have hnpos : (0 : ℚ) < size := by exact_mod_cast hs
  have hs1 : (1 : ℤ) ≤ (size : ℤ) := by exact_mod_cast hs
  set k : ℤ := (x : ℤ) + offs with hk
  have hcoord : cellUV size x + (offs : ℚ) / size = ((k : ℚ) + 1 / 2) / size := by
    rw [cellUV, div_add_div_same]
    congr 1
    push_cast [hk]
    ring
  have hscale : clampCoord size (((k : ℚ) + 1 / 2) / size) * size
      = min (max ((k : ℚ) + 1 / 2) (1 / 2)) ((size : ℚ) - 1 / 2) := by
    rw [clampCoord, min_mul_of_nonneg _ _ hnpos.le, max_mul_of_nonneg _ _ hnpos.le,
      div_mul_cancel₀ _ hn0]
    have h1 : 1 / (2 * (size : ℚ)) * size = 1 / 2 := by
      field_simp
      ring
    have h2 : (1 - 1 / (2 * (size : ℚ))) * size = (size : ℚ) - 1 / 2 := by
      field_simp
      ring
    rw [h1, h2]
  have hdist : min (max ((k : ℚ) + 1 / 2) (1 / 2)) ((size : ℚ) - 1 / 2)
      = ((min (max k 0) ((size : ℤ) - 1) : ℤ) : ℚ) + 1 / 2 := by
    push_cast
    rw [← min_add_add_right, ← max_add_add_right]
    norm_num
    congr 1
    ring
  have hfin : min (max k 0) ((size : ℤ) - 1) = max 0 (min ((size : ℤ) - 1) k) := by
    omega
  rw [neighborTexel, texelIndex, hcoord, hscale, hdist, Int.floor_int_add]
  norm_num [hfin]

/-- Witness for `C1_amended` at the concrete boundary cell of the
counterexample. -/
theorem C1_amended_witness :
    0 < 512 ∧ (0 : ℕ) < 512 ∧
      neighborTexel 512 0 (-1) = max 0 (min ((512 : ℤ) - 1) ((0 : ℤ) + (-1))) :=
  ⟨by decide, by decide, C1_amended 512 0 (-1) (by decide) (by decide)⟩

/-- Claim C2: on a set-up simulation, every step invocation of the field
engine, and every state and trail pass of the agent engine's step, binds
as read source a different buffer object from the render target it
writes, and at the end of the invocation each current-buffer index flips
to the slot that was just written. -/
theorem C2_double_buffer_separation (e : FieldEngine) (b : BoidsEngine)
    (t u : Touch) (he : FieldSim.Ready e) (hb : Boids.Ready b) :
    (∃ d, (FieldSim.step e t).2 = some d ∧ d.readTex ≠ d.writeTex ∧
      (FieldSim.step e t).1.currentTex = d.writeIdx ∧
      d.writeIdx = 1 - e.currentTex) ∧
    (∃ d, (Boids.step b u).2 = some d ∧ d.stateRead ≠ d.stateWrite ∧
      d.trailRead ≠ d.trailWrite ∧ d.pointRead ≠ d.pointWrite ∧
      (Boids.step b u).1.curState = d.stateWriteIdx ∧
      (Boids.step b u).1.curTrail = d.trailWriteIdx ∧
      d.stateWriteIdx = 1 - b.curState ∧ d.trailWriteIdx = 1 - b.curTrail) := by
  obtain ⟨hprog, _, _, htex, hcur⟩ := he
  obtain ⟨hbprog, _, _, _, _, hss, htt, hst00, hst01, hst10, hst11, hcs, hct⟩ := hb
  have hnone : e.stepProg.isNone = false := by
    cases h : e.stepProg <;> simp_all
  have hbnone : b.stepProg.isNone = false := by
    cases h : b.stepProg <;> simp_all
  have hstep : FieldSim.step e t
      = ({ e with currentTex := 1 - e.currentTex },
         some { readTex := FieldSim.texAt e e.currentTex,
                writeFB := FieldSim.fbAt e (1 - e.currentTex),
                writeTex := FieldSim.texAt e (1 - e.currentTex),
                writeIdx := 1 - e.currentTex,
                touchUniform := FieldSim.stepTouchUniform t }) := by
    simp [FieldSim.step, hnone]
  have hbstep : Boids.step b u
      = ({ b with curState := 1 - b.curState, curTrail := 1 - b.curTrail },
         some { stateRead := Boids.stateAt b b.curState,
                stateWrite := Boids.stateAt b (1 - b.curState),
                stateWriteIdx := 1 - b.curState,
                trailRead := Boids.trailAt b b.curTrail,
                trailWrite := Boids.trailAt b (1 - b.curTrail),
                trailWriteIdx := 1 - b.curTrail,
                pointRead := Boids.stateAt b (1 - b.curState),
                pointWrite := Boids.trailAt b (1 - b.curTrail),
                touch := Boids.touchUniforms u }) := by
    simp [Boids.step, hbnone]
  constructor
  · refine ⟨{ readTex := FieldSim.texAt e e.currentTex,
              writeFB := FieldSim.fbAt e (1 - e.currentTex),
              writeTex := FieldSim.texAt e (1 - e.currentTex),
              writeIdx := 1 - e.currentTex,
              touchUniform := FieldSim.stepTouchUniform t }, ?_, ?_, ?_, ?_⟩
    · rw [hstep]
    · rcases Nat.le_one_iff_eq_zero_or_eq_one.mp hcur with h | h
      · simpa [FieldSim.texAt, h] using htex
      · simpa [FieldSim.texAt, h] using htex.symm
    · rw [hstep]
    · rfl
  · refine ⟨{ stateRead := Boids.stateAt b b.curState,
              stateWrite := Boids.stateAt b (1 - b.curState),
              stateWriteIdx := 1 - b.curState,
              trailRead := Boids.trailAt b b.curTrail,
              trailWrite := Boids.trailAt b (1 - b.curTrail),
              trailWriteIdx := 1 - b.curTrail,
              pointRead := Boids.stateAt b (1 - b.curState),
              pointWrite := Boids.trailAt b (1 - b.curTrail),
              touch := Boids.touchUniforms u }, ?_, ?_, ?_, ?_, ?_, ?_, ?_, ?_⟩
    · rw [hbstep]
    · rcases Nat.le_one_iff_eq_zero_or_eq_one.mp hcs with h | h
      · simpa [Boids.stateAt, h] using hss
      · simpa [Boids.stateAt, h] using hss.symm
    · rcases Nat.le_one_iff_eq_zero_or_eq_one.mp hct with h | h
      · simpa [Boids.trailAt, h] using htt
      · simpa [Boids.trailAt, h] using htt.symm
    · rcases Nat.le_one_iff_eq_zero_or_eq_one.mp hcs with h | h <;>
        rcases Nat.le_one_iff_eq_zero_or_eq_one.mp hct with h2 | h2 <;>
        simp [Boids.stateAt, Boids.trailAt, h, h2, hst00, hst01, hst10, hst11]
    · rw [hbstep]
    · rw [hbstep]
    · rfl
    · rfl

/-- Witness for `C2_double_buffer_separation` on the engines produced by
a successful setup from a fresh context. -/
theorem C2_witness :
    FieldSim.Ready ((FieldSim.setup GLState.initial true true FieldSim.initial).1) ∧
    Boids.Ready ((Boids.setup GLState.initial 4 true true true true Boids.initial).1) ∧
    ((∃ d, (FieldSim.step
        ((FieldSim.setup GLState.initial true true FieldSim.initial).1)
        (Touch.mk (0, 0) false 0)).2 = some d ∧
        d.readTex ≠ d.writeTex ∧
        ((FieldSim.step
          ((FieldSim.setup GLState.initial true true FieldSim.initial).1)
          (Touch.mk (0, 0) false 0)).1).currentTex = d.writeIdx ∧
        d.writeIdx = 1 -
          ((FieldSim.setup GLState.initial true true FieldSim.initial).1).currentTex) ∧
      (∃ d, (Boids.step
        ((Boids.setup GLState.initial 4 true true true true Boids.initial).1)
        (Touch.mk (0, 0) false 0)).2 = some d ∧
        d.stateRead ≠ d.stateWrite ∧ d.trailRead ≠ d.trailWrite ∧
        d.pointRead ≠ d.pointWrite ∧
        ((Boids.step
          ((Boids.setup GLState.initial 4 true true true true Boids.initial).1)
          (Touch.mk (0, 0) false 0)).1).curState = d.stateWriteIdx ∧
        ((Boids.step
          ((Boids.setup GLState.initial 4 true true true true Boids.initial).1)
          (Touch.mk (0, 0) false 0)).1).curTrail = d.trailWriteIdx ∧
        d.stateWriteIdx = 1 -
          ((Boids.setup GLState.initial 4 true true true true Boids.initial).1).curState ∧
        d.trailWriteIdx = 1 -
          ((Boids.setup GLState.initial 4 true true true true Boids.initial).1).curTrail)) :=
  ⟨by decide, by decide,
    C2_double_buffer_separation _ _
      (Touch.mk (0, 0) false 0) (Touch.mk (0, 0) false 0)
      (by decide) (by decide)⟩

/-- Claim C3: a step invocation that aborts because the step program is
missing leaves the current-buffer index and all other internal engine
state unchanged, in both the field engine and the agent engine. -/
theorem C3_aborted_step_preserves_state (e : FieldEngine) (b : BoidsEngine)
    (t u : Touch) (he : e.stepProg = none) (hb : b.stepProg = none) :
    FieldSim.step e t = (e, none) ∧ Boids.step b u = (b, none) := by
  constructor
  · rw [FieldSim.step, he]
    rfl
  · rw [Boids.step, hb]
    rfl

/-- Witness for `C3_aborted_step_preserves_state` on the initial
(never-set-up) engine states. -/
theorem C3_witness :
    FieldSim.initial.stepProg = none ∧ Boids.initial.stepProg = none ∧
      (FieldSim.step FieldSim.initial (Touch.mk (0, 0) true 0)
          = (FieldSim.initial, none) ∧
        Boids.step Boids.initial (Touch.mk (0, 0) true 0)
          = (Boids.initial, none)) :=
  ⟨rfl, rfl,
    C3_aborted_step_preserves_state _ _
      (Touch.mk (0, 0) true 0) (Touch.mk (0, 0) true 0) rfl rfl⟩

/-- Claim C4 is false as stated: a setup call in which the step kernel
compiles but the display kernel fails aborts, yet the successfully
compiled step program allocated during that call remains allocated (and
referenced by the engine) after setup returns. -/
theorem C4_counterexample :
    (FieldSim.setup GLState.initial true false FieldSim.initial).1.stepProg = some 0 ∧
      Res.mk 0 ResKind.program ∈
        allocatedDuring GLState.initial
          (FieldSim.setup GLState.initial true false FieldSim.initial).2 := by
  decide

/-- Claim C4, amended: every setup call in which a kernel fails to
compile/link or a required GPU capability is missing logs the failure
and aborts before allocating any texture, framebuffer, or vertex buffer
— every resource allocated during the failed call is a compiled kernel
program (programs that compiled before the failing one remain allocated
until teardown), and the engine's texture/framebuffer/buffer slots are
left unchanged. -/
theorem C4_amended (gl glb : GLState) (e : FieldEngine) (b : BoidsEngine)
    (stepOk displayOk : Bool) (vtu : ℕ) (ok1 ok2 ok3 ok4 : Bool)
    (hf : stepOk = false ∨ displayOk = false)
    (hbf : vtu = 0 ∨ ok1 = false ∨ ok2 = false ∨ ok3 = false ∨ ok4 = false) :
    (gl.log.length < ((FieldSim.setup gl stepOk displayOk e).2).log.length ∧
      (∀ r ∈ ((FieldSim.setup gl stepOk displayOk e).2).allocated,
        r ∈ gl.allocated ∨ r.kind = ResKind.program) ∧
      (FieldSim.setup gl stepOk displayOk e).1.tex0 = e.tex0 ∧
      (FieldSim.setup gl stepOk displayOk e).1.tex1 = e.tex1 ∧
      (FieldSim.setup gl stepOk displayOk e).1.fb0 = e.fb0 ∧
      (FieldSim.setup gl stepOk displayOk e).1.fb1 = e.fb1) ∧
    (glb.log.length < ((Boids.setup glb vtu ok1 ok2 ok3 ok4 b).2).log.length ∧
      (∀ r ∈ ((Boids.setup glb vtu ok1 ok2 ok3 ok4 b).2).allocated,
        r ∈ glb.allocated ∨ r.kind = ResKind.program) ∧
      (Boids.setup glb vtu ok1 ok2 ok3 ok4 b).1.stateTex0 = b.stateTex0 ∧
      (Boids.setup glb vtu ok1 ok2 ok3 ok4 b).1.stateTex1 = b.stateTex1 ∧
      (Boids.setup glb vtu ok1 ok2 ok3 ok4 b).1.trailTex0 = b.trailTex0 ∧
      (Boids.setup glb vtu ok1 ok2 ok3 ok4 b).1.trailTex1 = b.trailTex1 ∧
      (Boids.setup glb vtu ok1 ok2 ok3 ok4 b).1.indexBuf = b.indexBuf) := by
  constructor
  · rcases hf with hf | hf
    · subst hf
      cases displayOk <;>
        simp_all [FieldSim.setup, createProgram, GLState.alloc, GLState.logErr] <;>
        omega
    · subst hf
      cases stepOk <;>
        simp_all [FieldSim.setup, createProgram, GLState.alloc, GLState.logErr] <;>
        omega
  · by_cases hv : vtu < 1
    · have hset : Boids.setup glb vtu ok1 ok2 ok3 ok4 b
          = (b, glb.logErr "Boids vertex texture fetch not supported") := by
        simp [Boids.setup, hv]
      rw [hset]
      refine ⟨by simp [GLState.logErr], ?_, rfl, rfl, rfl, rfl, rfl⟩
      intro r hr
      exact Or.inl hr
    · have h1 : ¬ vtu = 0 := by omega
      have hb2 : ok1 = false ∨ ok2 = false ∨ ok3 = false ∨ ok4 = false := by
        rcases hbf with hb1 | hb1 | hb1 | hb1 | hb1
        · exact absurd hb1 h1
        · exact Or.inl hb1
        · exact Or.inr (Or.inl hb1)
        · exact Or.inr (Or.inr (Or.inl hb1))
        · exact Or.inr (Or.inr (Or.inr hb1))
      cases ok1 <;> cases ok2 <;> cases ok3 <;> cases ok4 <;>
        simp_all [Boids.setup, createProgram, GLState.alloc, GLState.logErr, hv] <;>
        omega

/-- Witness for `C4_amended` at a concrete failing setup on a fresh
context (step kernel fails in the field engine; vertex texture fetch
missing in the agent engine). -/
theorem C4_amended_witness :
    ((false = false ∨ true = false) ∧ ((0 : ℕ) = 0 ∨ true = false ∨
      true = false ∨ true = false ∨ true = false)) ∧
    ((GLState.initial.log.length <
        ((FieldSim.setup GLState.initial false true FieldSim.initial).2).log.length ∧
      (∀ r ∈ ((FieldSim.setup GLState.initial false true FieldSim.initial).2).allocated,
        r ∈ GLState.initial.allocated ∨ r.kind = ResKind.program) ∧
      (FieldSim.setup GLState.initial false true FieldSim.initial).1.tex0
        = FieldSim.initial.tex0 ∧
      (FieldSim.setup GLState.initial false true FieldSim.initial).1.tex1
        = FieldSim.initial.tex1 ∧
      (FieldSim.setup GLState.initial false true FieldSim.initial).1.fb0
        = FieldSim.initial.fb0 ∧
      (FieldSim.setup GLState.initial false true FieldSim.initial).1.fb1
        = FieldSim.initial.fb1) ∧
    (GLState.initial.log.length <
        ((Boids.setup GLState.initial 0 true true true true Boids.initial).2).log.length ∧
      (∀ r ∈ ((Boids.setup GLState.initial 0 true true true true Boids.initial).2).allocated,
        r ∈ GLState.initial.allocated ∨ r.kind = ResKind.program) ∧
      (Boids.setup GLState.initial 0 true true true true Boids.initial).1.stateTex0
        = Boids.initial.stateTex0 ∧
      (Boids.setup GLState.initial 0 true true true true Boids.initial).1.stateTex1
        = Boids.initial.stateTex1 ∧
      (Boids.setup GLState.initial 0 true true true true Boids.initial).1.trailTex0
        = Boids.initial.trailTex0 ∧
      (Boids.setup GLState.initial 0 true true true true Boids.initial).1.trailTex1
        = Boids.initial.trailTex1 ∧
      (Boids.setup GLState.initial 0 true true true true Boids.initial).1.indexBuf
        = Boids.initial.indexBuf)) :=
  ⟨⟨Or.inl rfl, Or.inl rfl⟩,
    C4_amended GLState.initial GLState.initial FieldSim.initial Boids.initial
      false true 0 true true true true (Or.inl rfl) (Or.inl rfl)⟩

/-! ### Helper lemmas for the real-valued kernels -/

theorem glslClamp01_nonneg (x : ℝ) : 0 ≤ glslClamp x 0 1 :=
  le_min (le_max_right x 0) zero_le_one

theorem glslClamp01_le_one (x : ℝ) : glslClamp x 0 1 ≤ 1 :=
  min_le_right _ _

theorem PI2_pos : (0 : ℝ) < PI2 := by
  norm_num [PI2]

theorem glslMod_eq_mul_fract (x y : ℝ) (hy : y ≠ 0) :
    glslMod x y = y * Int.fract (x / y) := by
  rw [glslMod, Int.fract, mul_sub, mul_div_cancel₀ _ hy]

theorem glslMod_PI2_nonneg (x : ℝ) : 0 ≤ glslMod x PI2 := by
  rw [glslMod_eq_mul_fract x PI2 PI2_pos.ne']
  exact mul_nonneg PI2_pos.le (Int.fract_nonneg _)

theorem glslMod_PI2_lt (x : ℝ) : glslMod x PI2 < PI2 := by
  rw [glslMod_eq_mul_fract x PI2 PI2_pos.ne']
  calc PI2 * Int.fract (x / PI2) < PI2 * 1 :=
        mul_lt_mul_of_pos_left (Int.fract_lt_one _) PI2_pos
    _ = PI2 := mul_one _

theorem wrapPhase_nonneg (x : ℝ) : 0 ≤ wrapPhase x := by
  rw [wrapPhase, if_neg (not_lt.mpr (glslMod_PI2_nonneg x))]
  exact glslMod_PI2_nonneg x

theorem wrapPhase_lt_PI2 (x : ℝ) : wrapPhase x < PI2 := by
  rw [wrapPhase, if_neg (not_lt.mpr (glslMod_PI2_nonneg x))]
  exact glslMod_PI2_lt x

theorem glslLength_nonneg (v : ℝ × ℝ) : 0 ≤ glslLength v :=
  Real.sqrt_nonneg _

theorem glslLength_pos (v : ℝ × ℝ) (h : v ≠ (0, 0)) : 0 < glslLength v := by
  rw [glslLength]
  apply Real.sqrt_pos.mpr
  rcases eq_or_ne v.1 0 with h1 | h1
  · have h2 : v.2 ≠ 0 := by
      intro h2
      exact h (Prod.ext h1 h2)
    have := pow_two_pos_of_ne_zero h2
    nlinarith [sq_nonneg v.1]
  · have := pow_two_pos_of_ne_zero h1
    nlinarith [sq_nonneg v.2]

theorem glslLength_scale (a b c : ℝ) :
    glslLength (a * c, b * c) = |c| * glslLength (a, b) := by
  rw [glslLength, glslLength]
  have h : (a * c) ^ 2 + (b * c) ^ 2 = c ^ 2 * (a ^ 2 + b ^ 2) := by ring
  rw [h, Real.sqrt_mul (sq_nonneg c), Real.sqrt_sq_eq_abs]

theorem glslLength_rescale (a b s m : ℝ) :
    glslLength (a / s * m, b / s * m) = |m / s| * glslLength (a, b) := by
  have h1 : a / s * m = a * (m / s) := by ring
  have h2 : b / s * m = b * (m / s) := by ring
  rw [h1, h2, glslLength_scale]

theorem glslLength_rescale2 (a b s m w : ℝ) :
    glslLength (a / s * m * w, b / s * m * w) = |m * w / s| * glslLength (a, b) := by
  have h1 : a / s * m * w = a * (m * w / s) := by ring
  have h2 : b / s * m * w = b * (m * w / s) := by ring
  rw [h1, h2, glslLength_scale]

theorem touchSteer_inactive (tch : ℝ × ℝ) (btn mode perc ms mf : ℝ)
    (pos vel : ℝ × ℝ) : touchSteer 0 tch btn mode perc ms mf pos vel = (0, 0) := by
  rw [touchSteer, if_neg]
  norm_num

/-- Claim C5: with an inactive interaction state, the field engine's
step passes the sentinel `(-1, -1)` as the `u_touch` uniform, whatever
the stored pointer position; the reaction-diffusion kernel's next state
is then identical for any two stored pointer positions (a run with
interaction permanently disabled included); the agent engine passes
`u_touch = (-1, -1)` and `u_touchActive = 0`, and its step kernel's next
state is invariant under any change of the touch position and button
uniforms while `u_touchActive = 0`. -/
theorem C5_touch_sentinel :
    (∀ (p : ℚ × ℚ) (bn : ℕ),
      FieldSim.stepTouchUniform (Touch.mk p false bn) = (-1, -1)) ∧
    (∀ (uni : RDUniforms) (touchRadius : ℝ) (uv here up down left right : ℝ × ℝ)
        (p q : ℚ × ℚ) (bp bq : ℕ),
      rdStep uni (ratPair (FieldSim.stepTouchUniform (Touch.mk p false bp)))
          touchRadius uv here up down left right
        = rdStep uni (ratPair (FieldSim.stepTouchUniform (Touch.mk q false bq)))
          touchRadius uv here up down left right) ∧
    (∀ (p : ℚ × ℚ) (bn : ℕ),
      Boids.touchUniforms (Touch.mk p false bn) = ((-1, -1), 0, 0)) ∧
    (∀ (separation alignment cohesion perception maxSpeed mode : ℝ)
        (touchA touchB : ℝ × ℝ) (btnA btnB : ℝ) (table : AgentTable) (self : Agent),
      boidsAgentStep separation alignment cohesion perception maxSpeed mode
          touchA 0 btnA table self
        = boidsAgentStep separation alignment cohesion perception maxSpeed mode
          touchB 0 btnB table self) := by
  refine ⟨fun p bn => rfl, fun uni r uv h u d l rr p q bp bq => rfl,
    fun p bn => rfl, ?_⟩
  intro sep ali coh perc ms mode tA tB bA bB table self
  simp only [boidsAgentStep, boidsAccel, touchSteer_inactive]

/-- Claim C6: in the reaction-diffusion model, for every cell whose
stored channels (and neighbours) start within `[0, 1]`, both output
channels of the step kernel remain within `[0, 1]` for every choice of
uniform values and touch injection (the kernel clamps both channels to
`[0, 1]` before output). -/
theorem C6_concentration_clamping (uni : RDUniforms) (touch : ℝ × ℝ)
    (touchRadius : ℝ) (uv here up down left right : ℝ × ℝ)
    (hstart : ∀ c ∈ [here, up, down, left, right],
      0 ≤ c.1 ∧ c.1 ≤ 1 ∧ 0 ≤ c.2 ∧ c.2 ≤ 1) :
    0 ≤ (rdStep uni touch touchRadius uv here up down left right).1 ∧
    (rdStep uni touch touchRadius uv here up down left right).1 ≤ 1 ∧
    0 ≤ (rdStep uni touch touchRadius uv here up down left right).2 ∧
    (rdStep uni touch touchRadius uv here up down left right).2 ≤ 1 := by
  refine ⟨?_, ?_, ?_, ?_⟩ <;> rw [rdStep] <;> dsimp only
  · exact glslClamp01_nonneg _
  · exact glslClamp01_le_one _
  · exact glslClamp01_nonneg _
  · exact glslClamp01_le_one _

/-- Witness for `C6_concentration_clamping` at a concrete in-range cell
with the default preset uniforms and an inactive touch. -/
theorem C6_witness :
    (∀ c ∈ [((1/2 : ℝ), (1/2 : ℝ)), (1, 0), (1, 0), (0, 1), (1/4, 3/4)],
      0 ≤ c.1 ∧ c.1 ≤ 1 ∧ 0 ≤ c.2 ∧ c.2 ≤ 1) ∧
    (0 ≤ (rdStep (RDUniforms.mk 0.042 0.063 0.16 0.08) (-1, -1) 0.03 (1/2, 1/2)
        (1/2, 1/2) (1, 0) (1, 0) (0, 1) (1/4, 3/4)).1 ∧
      (rdStep (RDUniforms.mk 0.042 0.063 0.16 0.08) (-1, -1) 0.03 (1/2, 1/2)
        (1/2, 1/2) (1, 0) (1, 0) (0, 1) (1/4, 3/4)).1 ≤ 1 ∧
      0 ≤ (rdStep (RDUniforms.mk 0.042 0.063 0.16 0.08) (-1, -1) 0.03 (1/2, 1/2)
        (1/2, 1/2) (1, 0) (1, 0) (0, 1) (1/4, 3/4)).2 ∧
      (rdStep (RDUniforms.mk 0.042 0.063 0.16 0.08) (-1, -1) 0.03 (1/2, 1/2)
        (1/2, 1/2) (1, 0) (1, 0) (0, 1) (1/4, 3/4)).2 ≤ 1) :=
  ⟨by intro c hc; fin_cases hc <;> norm_num,
    C6_concentration_clamping (RDUniforms.mk 0.042 0.063 0.16 0.08) (-1, -1) 0.03
      (1/2, 1/2) (1/2, 1/2) (1, 0) (1, 0) (0, 1) (1/4, 3/4)
      (by intro c hc; fin_cases hc <;> norm_num)⟩

/-- Claim C7: the phase channel output by every Kuramoto step lies in
`[0, 2π)` (`2π` being the kernel's `PI2` constant): the kernel reduces
the computed angle modulo `2π` with a correction for negative results,
and a raw computed phase of `-0.1` rad is stored as `2π - 0.1`. -/
theorem C7_phase_wraparound :
    (∀ (K dt : ℝ) (touch : ℝ × ℝ) (touchRadius : ℝ) (uv here : ℝ × ℝ)
        (tUp tDown tLeft tRight : ℝ),
      0 ≤ (kuramotoStep K dt touch touchRadius uv here tUp tDown tLeft tRight).1 ∧
      (kuramotoStep K dt touch touchRadius uv here tUp tDown tLeft tRight).1 < PI2) ∧
    wrapPhase (-(1/10)) = PI2 - 1/10 := by
  constructor
  · intro K dt touch touchRadius uv here tUp tDown tLeft tRight
    rw [kuramotoStep]
    dsimp only
    exact ⟨wrapPhase_nonneg _, wrapPhase_lt_PI2 _⟩
  · have hfl : Int.floor ((-(1/10) : ℝ) / PI2) = -1 := by
      rw [Int.floor_eq_iff]
      constructor <;> push_cast <;> norm_num [PI2]
    rw [wrapPhase, glslMod, hfl]
    push_cast
    rw [if_neg (by norm_num [PI2])]
    norm_num [PI2]

/-- Claim C8: in the agent engine, the stored position after
integration equals the integrated position taken modulo `1.0` in each
axis (GLSL `fract`), hence always lies in `[0, 1)`; an agent at
`(0.995, 0.5)` whose applied velocity is `(0.02, 0.0)` lands at
`(0.015, 0.5)`, not `(1.015, 0.5)`. -/
theorem C8_toroidal_position_wrap :
    (∀ pos vel2 : ℝ × ℝ,
      integratePos pos vel2
          = (glslMod (pos.1 + vel2.1) 1, glslMod (pos.2 + vel2.2) 1) ∧
        0 ≤ (integratePos pos vel2).1 ∧ (integratePos pos vel2).1 < 1 ∧
        0 ≤ (integratePos pos vel2).2 ∧ (integratePos pos vel2).2 < 1) ∧
    integratePos (199/200, 1/2) (integrateVel (1/50) (1/50, 0) (0, 0))
      = (3/200, 1/2) := by
  constructor
  · intro pos vel2
    have hmod : ∀ x : ℝ, glslMod x 1 = Int.fract x := by
      intro x
      rw [glslMod, Int.fract, div_one, one_mul]
    refine ⟨?_, Int.fract_nonneg _, Int.fract_lt_one _,
      Int.fract_nonneg _, Int.fract_lt_one _⟩
    rw [integratePos, hmod, hmod]
  · have hspd : glslLength ((1/50 : ℝ) + 0, (0 : ℝ) + 0) = 1/50 := by
      rw [glslLength]
      have h : ((1/50 : ℝ) + 0) ^ 2 + ((0 : ℝ) + 0) ^ 2 = (1/50) ^ 2 := by norm_num
      rw [h, Real.sqrt_sq (by norm_num)]
    have hiv : integrateVel (1/50) ((1/50 : ℝ), (0 : ℝ)) (0, 0) = (1/50, 0) := by
      rw [integrateVel]
      dsimp only
      rw [hspd]
      rw [if_neg (by norm_num), if_neg (by norm_num)]
      norm_num
    rw [hiv, integratePos]
    have h1 : Int.fract ((199/200 : ℝ) + 1/50) = 3/200 := by
      have h : (199/200 : ℝ) + 1/50 = ((1 : ℤ) : ℝ) + 3/200 := by push_cast; norm_num
      rw [h, Int.fract_int_add, Int.fract_eq_self.mpr (by constructor <;> norm_num)]
    have h2 : Int.fract ((1/2 : ℝ) + 0) = 1/2 := by
      rw [Int.fract_eq_self.mpr (by constructor <;> norm_num)]
      norm_num
    rw [h1, h2]

/-- Claim C9 is false as stated: an agent whose integrated velocity is
exactly zero is not raised to the minimum-speed floor (the kernel's
floor branch requires `spd > 0.0`), so its post-step speed is below
`0.12 * maxSpeed`.  Concretely, with `maxSpeed = 0.004`, velocity
`(0.001, 0)` and acceleration `(-0.001, 0)` the integrated speed is `0 <
0.12 * 0.004`. -/
theorem C9_counterexample :
    glslLength (integrateVel (1/250) ((1/1000 : ℝ), (0 : ℝ)) (-(1/1000), 0))
      < (1/250) * 0.12 := by
  have hlen : glslLength ((1/1000 : ℝ) + -(1/1000), (0 : ℝ) + 0) = 0 := by
    rw [glslLength]
    have h : ((1/1000 : ℝ) + -(1/1000)) ^ 2 + ((0 : ℝ) + 0) ^ 2 = 0 := by norm_num
    rw [h, Real.sqrt_zero]
  rw [integrateVel]
  dsimp only
  rw [hlen]
  rw [if_neg (by norm_num), if_neg (by norm_num)]
  rw [hlen]
  norm_num

/-- Claim C9, amended: for every step whose integrated velocity is
nonzero (and positive `maxSpeed`), the agent's speed after the kernel's
clamping lies in `[0.12 * maxSpeed, maxSpeed]`; an exactly-zero
integrated velocity stays zero (the nonzero floor applies only to
moving agents). -/
theorem C9_amended (maxSpeed : ℝ) (vel accel : ℝ × ℝ) (hm : 0 < maxSpeed)
    (hv : ((vel.1 + accel.1 : ℝ), (vel.2 + accel.2 : ℝ)) ≠ (0, 0)) :
    maxSpeed * 0.12 ≤ glslLength (integrateVel maxSpeed vel accel) ∧
      glslLength (integrateVel maxSpeed vel accel) ≤ maxSpeed := by
  have hspd : 0 < glslLength (vel.1 + accel.1, vel.2 + accel.2) :=
    glslLength_pos _ hv
  rw [integrateVel]
  dsimp only
  by_cases h1 : maxSpeed < glslLength (vel.1 + accel.1, vel.2 + accel.2)
  · rw [if_pos h1, if_neg (by
      rintro ⟨-, h3⟩
      nlinarith)]
    rw [glslLength_rescale]
    rw [abs_of_pos (by positivity)]
    rw [div_mul_cancel₀ _ hspd.ne']
    constructor <;> nlinarith
  · rw [if_neg h1]
    by_cases h3 : glslLength (vel.1 + accel.1, vel.2 + accel.2) < maxSpeed * 0.12
    · rw [if_pos ⟨hspd, h3⟩]
      rw [glslLength_rescale2]
      rw [abs_of_pos (by positivity)]
      rw [div_mul_cancel₀ _ hspd.ne']
      constructor <;> nlinarith
    · rw [if_neg (by
        rintro ⟨-, hc⟩
        exact h3 hc)]
      push_neg at h1 h3
      exact ⟨h3, h1⟩

/-- Witness for `C9_amended` at a moving agent with the default
`maxSpeed` control value. -/
theorem C9_amended_witness :
    (0 : ℝ) < 1/250 ∧
    (((1/250 : ℝ) + 0, (0 : ℝ) + 0) ≠ ((0 : ℝ), (0 : ℝ))) ∧
    ((1/250 : ℝ) * 0.12 ≤ glslLength (integrateVel (1/250) (1/250, 0) (0, 0)) ∧
      glslLength (integrateVel (1/250) ((1/250 : ℝ), (0 : ℝ)) (0, 0)) ≤ 1/250) :=
  ⟨by norm_num, by norm_num [Prod.ext_iff],
    C9_amended (1/250) (1/250, 0) (0, 0) (by norm_num)
      (by norm_num [Prod.ext_iff])⟩

/-- Claim C10: a trail pixel to which zero agents contribute for `n`
consecutive ticks decays exactly exponentially: its intensity after the
`n` fade passes is `V * p ^ n` for persistence factor `p` and initial
intensity `V`. -/
theorem C10_trail_decay (persistence V : ℝ) (contrib : ℕ → ℝ) (n : ℕ)
    (h : ∀ i < n, contrib i = 0) :
    trailRun persistence contrib n V = V * persistence ^ n := by
  induction n with
  | zero => simp [trailRun]
  | succ k ih =>
    rw [trailRun, trailTick, ih (fun i hi => h i (Nat.lt_succ_of_lt hi)),
      h k (Nat.lt_succ_self k)]
    ring

/-- Witness for `C10_trail_decay`: three contribution-free ticks at the
default persistence `0.96` from initial intensity `1`. -/
theorem C10_witness :
    (∀ i < 3, (fun _ : ℕ => (0 : ℝ)) i = 0) ∧
    trailRun (24/25) (fun _ => 0) 3 1 = 1 * (24/25) ^ 3 :=
  ⟨fun i _ => rfl, C10_trail_decay (24/25) 1 (fun _ => 0) 3 (fun i _ => rfl)⟩

end Emergence
